import Mathlib

/-
Verification of the price-extraction and budget-evaluation pipeline of
The_Budget_Travel_Guardian (src/pages/api/check-prices.ts).

Modelling conventions:
* JavaScript numbers are idealized as exact rationals (ℚ); quote prices,
  which the source always produces through `Math.round`, are integers (ℤ).
* `Math.round x` is `⌊x + 1/2⌋` (JS rounds half toward +∞).
* Every `Math.random()` draw is an explicit parameter in `[0, 1)`; the
  random vocabulary indices `Math.floor(Math.random() * len)` are explicit
  `Nat` parameters (in range `[0, len)` for a faithful run).
* The Perplexity search gateway is external I/O; its response is an explicit
  `Option SearchResult` input (none = request failed / no API key).
* The JS regexes of `extractPrice` are embedded as a small backtracking
  regex engine with JavaScript semantics (leftmost match, greedy
  quantifiers, alternation priority by order, case-insensitive flag as
  ASCII case folding — all vocabulary/pattern text here is ASCII).
-/

namespace TravelGuardian

/-- ASCII lower-casing: the effect of the JS regex `i` flag and of
`String.prototype.toLowerCase()` on the ASCII strings used by the source. -/
def lowerChar (c : Char) : Char :=
  if 'A' ≤ c ∧ c ≤ 'Z' then Char.ofNat (c.toNat + 32) else c

/-- JS `\s` on the ASCII range (space, tab, newline, carriage return,
vertical tab, form feed). -/
def isWsChar (c : Char) : Bool :=
  c == ' ' || c == '\t' || c == '\n' || c == '\r' ||
  c == Char.ofNat 11 || c == Char.ofNat 12

/-- `String.prototype.toLowerCase()` (ASCII). -/
def strLower (s : String) : String := String.mk (s.toList.map lowerChar)

/-- JS `str.replace(c, '')` with a one-character string pattern: removes the
first occurrence only. -/
def removeFirst (c : Char) : List Char → List Char
  | [] => []
  | x :: t => if x == c then t else x :: removeFirst c t

/-- JS truthiness of an optional string field: `undefined`/`null` and the
empty string are falsy. -/
def strTruthy : Option String → Bool
  | none => false
  | some s => !s.toList.isEmpty

/-- JS `Array.prototype.join(sep)` on an array of strings. -/
def joinSep (sep : String) : List String → String
  | [] => ""
  | [x] => x
  | x :: y :: t => x ++ sep ++ joinSep sep (y :: t)

/-- `Math.round`: JS rounds half toward +∞, i.e. `⌊x + 1/2⌋`. -/
def jsRound (q : ℚ) : ℤ := ⌊q + 1/2⌋

/-! ## A tiny backtracking regex engine (JavaScript semantics)

Only the constructs appearing in the four price patterns of `extractPrice`
(lines 154–159 of check-prices.ts) are supported: character classes,
literals (optionally case-insensitive), concatenation, alternation
(priority = order), greedy `*`, greedy `?`, and one capturing group. -/

inductive RE : Type where
  | cls (p : Char → Bool) : RE
  | lit (s : List Char) (ci : Bool) : RE
  | seq (a b : RE) : RE
  | alt (a b : RE) : RE
  | star (a : RE) : RE
  | opt (a : RE) : RE
  | grp (a : RE) : RE

/-- Match a literal (case-insensitively if `ci`); returns the rest of the
input on success. -/
def litMatch (pat : List Char) (ci : Bool) (s : List Char) : Option (List Char) :=
  match pat, s with
  | [], s => some s
  | _ :: _, [] => none
  | p :: ps, c :: cs =>
    if (if ci then lowerChar p == lowerChar c else p == c) then litMatch ps ci cs
    else none

/-- Backtracking matcher in continuation-passing style.  `cap` is the content
of capture group 1 (if already closed), `k` the continuation receiving the
remaining input and capture.  JS semantics: alternation tries its left arm
first, `*` and `?` are greedy, a `*` iteration must consume input.  `fuel`
bounds the recursion depth; every pattern is run with fuel that is ample for
its size, so exhaustion never occurs on the patterns of this file. -/
def matchRE (fuel : Nat) (re : RE) (s : List Char) (cap : Option (List Char))
    (k : List Char → Option (List Char) → Option (List Char × List Char)) :
    Option (List Char × List Char) :=
  match fuel with
  | 0 => none
  | fuel + 1 =>
    match re with
    | .cls p =>
      match s with
      | [] => none
      | c :: cs => if p c then k cs cap else none
    | .lit t ci =>
      match litMatch t ci s with
      | some rest => k rest cap
      | none => none
    | .seq a b => matchRE fuel a s cap (fun s1 c1 => matchRE fuel b s1 c1 k)
    | .alt a b =>
      match matchRE fuel a s cap k with
      | some r => some r
      | none => matchRE fuel b s cap k
    | .opt a =>
      match matchRE fuel a s cap k with
      | some r => some r
      | none => k s cap
    | .star a =>
      match matchRE fuel a s cap
        (fun s1 c1 =>
          if s1.length < s.length then matchRE fuel (.star a) s1 c1 k else none) with
      | some r => some r
      | none => k s cap
    | .grp a => matchRE fuel a s cap (fun s1 _ => k s1 (some (s.take (s.length - s1.length))))

/-- Anchored match attempt at the start of `s`; on success returns the
content of capture group 1 and the input remaining after the whole match. -/
def matchAt (re : RE) (s : List Char) : Option (List Char × List Char) :=
  matchRE (64 * (s.length + 2)) re s none
    (fun rest cap => match cap with | some c => some (c, rest) | none => none)

/-- `text.matchAll(re)` collecting group 1 of every match: find the leftmost
match, emit its capture, continue after it (all matches of the price
patterns consume at least one character; the `rest.length < s.length` guard
mirrors the JS engine's forced advance and is never hit otherwise). -/
def scanRE (fuel : Nat) (re : RE) (s : List Char) : List (List Char) :=
  match fuel with
  | 0 => []
  | fuel + 1 =>
    match matchAt re s with
    | some (cap, rest) =>
      if rest.length < s.length then cap :: scanRE fuel re rest else [cap]
    | none =>
      match s with
      | [] => []
      | _ :: t => scanRE fuel re t

/-- All group-1 captures of `re` over `s`, in match order. -/
def reCaptures (re : RE) (s : List Char) : List (List Char) :=
  scanRE (s.length + 1) re s

/-! ## The four price patterns of `extractPrice` (check-prices.ts 154–159) -/

/-- `\d` -/
def dC : RE := .cls Char.isDigit

/-- `\d{2}` -/
def d2 : RE := .seq dC dC

/-- `\d{3}` -/
def d3 : RE := .seq dC d2

/-- `\d{1,3}`, greedy: try 3 digits, then 2, then 1. -/
def digits13 : RE := .alt d3 (.alt d2 dC)

/-- `(?:,\d{3})` -/
def commaGroup : RE := .seq (.lit [','] false) d3

/-- `(?:\.\d{2})?` -/
def centsPart : RE := .opt (.seq (.lit ['.'] false) d2)

/-- The shared capturing amount group `(\d{1,3}(?:,\d{3})*(?:\.\d{2})?)`. -/
def amountRE : RE := .grp (.seq digits13 (.seq (.star commaGroup) centsPart))

/-- `[:\s]` -/
def colonWs : RE := .cls (fun c => c == ':' || isWsChar c)

/-- `x+` = `x x*` -/
def rePlus (a : RE) : RE := .seq a (.star a)

/-- `/\$(\d{1,3}(?:,\d{3})*(?:\.\d{2})?)/g` -/
def pat1 : RE := .seq (.lit ['$'] false) amountRE

/-- `/(\d{1,3}(?:,\d{3})*(?:\.\d{2})?)\s*(?:USD|dollars?)/gi` -/
def pat2 : RE :=
  .seq amountRE
    (.seq (.star (.cls isWsChar))
      (.alt (.lit "USD".toList true)
        (.seq (.lit "dollar".toList true) (.opt (.lit ['s'] true)))))

/-- `/price[:\s]+\$?(\d{1,3}(?:,\d{3})*(?:\.\d{2})?)/gi` -/
def pat3 : RE :=
  .seq (.lit "price".toList true)
    (.seq (rePlus colonWs) (.seq (.opt (.lit ['$'] false)) amountRE))

/-- `/(?:from|starting at|as low as)[:\s]+\$?(\d{1,3}(?:,\d{3})*(?:\.\d{2})?)/gi` -/
def pat4 : RE :=
  .seq (.alt (.lit "from".toList true)
        (.alt (.lit "starting at".toList true) (.lit "as low as".toList true)))
    (.seq (rePlus colonWs) (.seq (.opt (.lit ['$'] false)) amountRE))

/-- The ordered pattern list of `extractPrice`. -/
def pricePatterns : List RE := [pat1, pat2, pat3, pat4]

/-! ## Parsing a captured amount (`match[1].replace(/,/g, '') → parseFloat`) -/

/-- `.replace(/,/g, '')` -/
def stripCommas (cs : List Char) : List Char := cs.filter (fun c => c ≠ ',')

/-- Decimal digits to a natural number. -/
def digitsToNat (cs : List Char) : Nat :=
  cs.foldl (fun a c => 10 * a + (c.toNat - 48)) 0

/-- `parseFloat` on a captured amount (digits with optional `.dd` cents),
idealized as an exact rational. -/
def parseAmount (cs : List Char) : ℚ :=
  let cs := stripCommas cs
  let ip := cs.takeWhile (fun c => c ≠ '.')
  let fp := (cs.dropWhile (fun c => c ≠ '.')).drop 1
  (digitsToNat ip : ℚ) + (digitsToNat fp : ℚ) / 100

/-- All group-1 captures of the four price patterns over `text`, in the
order the source collects them (pattern by pattern, matches left to right). -/
def matchedCaptures (text : String) : List (List Char) :=
  (pricePatterns.map (fun p => reCaptures p text.toList)).flatten

/-- The numeric amounts `extractPrice` collects from `text` before the
plausibility filter. -/
def matchedAmounts (text : String) : List ℚ :=
  (matchedCaptures text).map parseAmount

/-- The `prices` array of `extractPrice` (check-prices.ts 161–172): amounts
that pass `price > 0 && price >= fallbackMin*0.3 && price <= fallbackMax*3`,
pushed as `Math.round(price)`. -/
def survivingPrices (text : String) (fallbackMin fallbackMax : ℚ) : List ℤ :=
  (matchedAmounts text).filterMap (fun price =>
    if 0 < price ∧ fallbackMin * (3/10) ≤ price ∧ price ≤ fallbackMax * 3 then
      some (jsRound price)
    else none)

/-- `extractPrice` (check-prices.ts 152–181).  `rand` models the single
`Math.random()` draw of the fallback branch. -/
def extractPrice (text : String) (fallbackMin fallbackMax : ℚ) (rand : ℚ) : ℤ :=
  match survivingPrices text fallbackMin fallbackMax with
  | [] => jsRound (fallbackMin + rand * (fallbackMax - fallbackMin))
  | p :: ps => ps.foldl min p

/-! ## Entity extraction

The source inlines the same three lines at check-prices.ts 253–256
(airlines), 350–353 (hotel names) and 445–448 (car types):

    const pattern = new RegExp(vocab.join('|'), 'i');
    const m = text.match(pattern);
    const entity = m ? m[0] : vocab[Math.floor(Math.random() * vocab.length)];

The vocabulary entries contain no regex metacharacters, so the alternation
is a case-insensitive literal search: leftmost occurrence wins, and among
entries matching at the same position the first listed wins.  `m[0]` is the
matched slice of `text` (its original casing), not the vocabulary entry. -/

/-- Case-insensitive (ASCII) equality of character lists. -/
def ciEq (a b : List Char) : Bool :=
  a.map lowerChar == b.map lowerChar

/-- Does `w` match case-insensitively at the start of `s`? -/
def ciStartsWith (w s : List Char) : Bool :=
  ciEq w (s.take w.length)

/-- The first vocabulary entry (in list order) matching at the start of
`s`, mirroring JS alternation priority at a fixed position. -/
def vocabHitAt (vocab : List String) (s : List Char) : Option String :=
  vocab.find? (fun w => ciStartsWith w.toList s)

/-- `text.match(new RegExp(vocab.join('|'), 'i'))`, returning `m[0]`: scan
for the leftmost position where some entry matches, and return the matched
slice of the text. -/
def scanVocab (vocab : List String) : List Char → Option (List Char)
  | [] => none
  | c :: t =>
    match vocabHitAt vocab (c :: t) with
    | some w => some ((c :: t).take w.toList.length)
    | none => scanVocab vocab t

/-- The inlined entity extraction (named `extractEntity` after spec §4.3):
matched slice if the pattern hits, otherwise `vocab[fallbackIdx]` where
`fallbackIdx` models `Math.floor(Math.random() * vocab.length)`. -/
def extractEntity (text : String) (vocab : List String) (fallbackIdx : Nat) : String :=
  match scanVocab vocab text.toList with
  | some s => String.mk s
  | none => vocab.getD fallbackIdx ""

/-- check-prices.ts 253: airline vocabulary of the Perplexity branch. -/
def airlines8 : List String :=
  ["United", "Delta", "American", "Southwest", "JetBlue", "Alaska", "Spirit", "Frontier"]

/-- check-prices.ts 272: airline vocabulary of the simulation fallback. -/
def airlinesSim : List String :=
  ["United", "Delta", "American", "Southwest", "JetBlue"]

/-- check-prices.ts 350: hotel vocabulary of the Perplexity branch. -/
def hotelNames10 : List String :=
  ["Marriott", "Hilton", "Hyatt", "Holiday Inn", "Best Western", "Sheraton",
   "DoubleTree", "Courtyard", "Hampton Inn", "Fairfield Inn"]

/-- check-prices.ts 369: hotel vocabulary of the simulation fallback. -/
def hotelNamesSim : List String :=
  ["Marriott", "Hilton", "Hyatt", "Holiday Inn", "Best Western", "Sheraton"]

/-- check-prices.ts 445: car-type vocabulary of the Perplexity branch. -/
def carTypes8 : List String :=
  ["Economy", "Compact", "Mid-size", "Midsize", "Full-size", "SUV", "Standard", "Intermediate"]

/-- check-prices.ts 464: car-type vocabulary of the simulation fallback. -/
def carTypesSim : List String :=
  ["Economy", "Compact", "Mid-size", "Full-size", "SUV"]

/-! ## The external search gateway's response -/

/-- One entry of `searchResult.results`.  Fields are optional: `none`
models an absent/undefined field (falsy in JS). -/
structure SearchItem where
  title : Option String
  url : Option String
  snippet : Option String

/-- A Perplexity response body.  `results = some []` is a present but empty
array — truthy in JS, unlike `none` (absent/null). -/
structure SearchResult where
  answer : Option String
  results : Option (List SearchItem)

/-- check-prices.ts 246 (identical at 343 and 438):
`searchResult.answer || (searchResult.results && searchResult.results.map(r
=> r.snippet || r.title || '').join(' ')) || ''`. -/
def resultText (sr : SearchResult) : String :=
  if strTruthy sr.answer then sr.answer.getD ""
  else
    match sr.results with
    | some rs =>
      joinSep " " (rs.map (fun r =>
        if strTruthy r.snippet then r.snippet.getD ""
        else if strTruthy r.title then r.title.getD "" else ""))
    | none => ""

/-- `extractBookingUrls` (check-prices.ts 186–198): the truthy `url` fields
of the results array, capped at 3. -/
def extractBookingUrls (sr : SearchResult) : List String :=
  let urls : List String :=
    match sr.results with
    | some rs => rs.filterMap (fun (r : SearchItem) =>
        match r.url with
        | some u => if u.toList.isEmpty then none else some u
        | none => none)
    | none => []
  urls.take 3

/-- The truthiness test of `if (searchResult && (searchResult.answer ||
searchResult.results))` (check-prices.ts 245, 342, 437). -/
def searchUsable : Option SearchResult → Bool
  | none => false
  | some r => strTruthy r.answer || r.results.isSome

/-! ## Flight preferences and the query builder -/

inductive StopsPref where
  | direct | oneStop | multiStop | anyStops
deriving DecidableEq

/-- The string the `${prefs.stops}` interpolation produces. -/
def stopsText : StopsPref → String
  | .direct => "direct"
  | .oneStop => "one-stop"
  | .multiStop => "multi-stop"
  | .anyStops => "any"

inductive TimeOfDayPref where
  | morning | afternoon | evening | redEye | anyTime
deriving DecidableEq

def timeOfDayText : TimeOfDayPref → String
  | .morning => "morning"
  | .afternoon => "afternoon"
  | .evening => "evening"
  | .redEye => "red-eye"
  | .anyTime => "any"

/-- `FlightPreferences` (src/types/travel.ts): every field optional. -/
structure FlightPreferences where
  stops : Option StopsPref
  preferredAirlines : Option (List String)
  seatPreference : Option String
  extraLegroom : Option Bool
  timeOfDay : Option TimeOfDayPref
  baggageCount : Option Nat

/-- `prefs.stops && prefs.stops !== 'any'` -/
def activeStops (p : FlightPreferences) : Bool :=
  match p.stops with
  | some s => decide (s ≠ .anyStops)
  | none => false

/-- `prefs.preferredAirlines && prefs.preferredAirlines.length > 0` -/
def activeAirlines (p : FlightPreferences) : Bool :=
  match p.preferredAirlines with
  | some l => decide (0 < l.length)
  | none => false

/-- `prefs.extraLegroom` (truthy only when present and `true`) -/
def activeLegroom (p : FlightPreferences) : Bool :=
  match p.extraLegroom with
  | some b => b
  | none => false

/-- `prefs.timeOfDay && prefs.timeOfDay !== 'any'` -/
def activeTimeOfDay (p : FlightPreferences) : Bool :=
  match p.timeOfDay with
  | some t => decide (t ≠ .anyTime)
  | none => false

/-- `prefs.baggageCount` (`0` is falsy) -/
def activeBaggage (p : FlightPreferences) : Bool :=
  match p.baggageCount with
  | some n => decide (0 < n)
  | none => false

/-- `buildFlightPreferencesQuery` (check-prices.ts 203–229). -/
def buildFlightPreferencesQuery : Option FlightPreferences → String
  | none => ""
  | some p =>
    let parts : List String :=
      (if activeStops p then
        [(match p.stops with | some s => stopsText s | none => "") ++ " flights only"]
       else []) ++
      (if activeAirlines p then
        ["Prefer airlines: " ++ joinSep ", " (p.preferredAirlines.getD [])]
       else []) ++
      (if activeLegroom p then ["with extra legroom seats"] else []) ++
      (if activeTimeOfDay p then
        [(match p.timeOfDay with | some t => timeOfDayText t | none => "") ++ " departure time"]
       else []) ++
      (if activeBaggage p then
        ["including " ++ toString (p.baggageCount.getD 0) ++ " checked bag(s)"]
       else [])
    if 0 < parts.length then "\nPreferences: " ++ joinSep ", " parts ++ "." else ""

/-- No preference field passes its truthiness guard. -/
def inactivePrefs (p : FlightPreferences) : Bool :=
  !activeStops p && !activeAirlines p && !activeLegroom p &&
  !activeTimeOfDay p && !activeBaggage p

/-- The flight query template (check-prices.ts 237–240). -/
def flightQuery (origin destination startDate : String)
    (prefs : Option FlightPreferences) : String :=
  "Find the cheapest flight prices from " ++ origin ++ " to " ++ destination ++
  " departing on " ++ startDate ++ ". \n" ++
  "Search only travel booking sites (Kayak, Expedia, Google Flights, Skyscanner).\n" ++
  "Provide specific dollar amounts, airline names, and direct booking links." ++
  buildFlightPreferencesQuery prefs ++ "\n" ++
  "Format: \"$XXX on [Airline] via [booking site URL]\""

/-- The fixed `TRAVEL_DOMAINS` table (check-prices.ts 33–96). -/
structure TravelDomains where
  flights : List String
  hotels : List String
  cars : List String

def TRAVEL_DOMAINS : TravelDomains where
  flights :=
    ["expedia.com", "kayak.com", "skyscanner.com", "google.com/flights",
     "united.com", "delta.com", "american.com", "southwest.com", "jetblue.com",
     "alaskaair.com", "spirit.com", "frontier.com", "priceline.com",
     "orbitz.com", "cheapoair.com", "momondo.com", "hipmunk.com",
     "booking.com/flights"]
  hotels :=
    ["booking.com", "expedia.com", "hotels.com", "priceline.com", "orbitz.com",
     "kayak.com", "trivago.com", "agoda.com", "marriott.com", "hilton.com",
     "ihg.com", "hyatt.com", "accor.com", "choicehotels.com",
     "wyndhamhotels.com", "bestwestern.com", "sheraton.com", "westin.com",
     "ritzcarlton.com", "fourseasons.com"]
  cars :=
    ["enterprise.com", "hertz.com", "avis.com", "budget.com", "nationalcar.com",
     "alamo.com", "thrifty.com", "dollar.com", "expedia.com", "kayak.com",
     "priceline.com", "orbitz.com", "rentalcars.com", "autoeurope.com",
     "carrentals.com", "hotwire.com", "costcotravel.com", "aaa.com"]

/-! ## Category lookups (checkFlightPrices / checkHotelPrices / checkCarPrices)

Each lookup builds a query, sends it to the gateway (here: the explicit
`sr : Option SearchResult` input) and produces a quote, falling back to a
randomized simulation when the response is unusable. -/

/-- The `Math.random()` draws one category lookup can consume.  The
Perplexity branch uses `priceRand` (inside `extractPrice`) and `entityIdx`
(vocabulary fallback index); the simulation branch uses `baseRand`,
`varRand` and `simIdx`. -/
structure CatRnd where
  priceRand : ℚ
  entityIdx : Nat
  baseRand : ℚ
  varRand : ℚ
  simIdx : Nat

/-- The flight quote record returned by `checkFlightPrices`.
`searchResult` is present only on the Perplexity branch. -/
structure FlightData where
  price : ℤ
  carrier : String
  withinBudget : Bool
  source : String
  searchResult : Option String
  bookingUrls : List String

structure HotelData where
  pricePerNight : ℤ
  name : String
  withinBudget : Bool
  source : String
  searchResult : Option String
  bookingUrls : List String

structure CarData where
  pricePerDay : ℤ
  type : String
  withinBudget : Bool
  source : String
  searchResult : Option String
  bookingUrls : List String

/-- `text.substring(0, 300)` -/
def strTake (s : String) (n : Nat) : String := String.mk (s.toList.take n)

/-- The simulation fallback of `checkFlightPrices` (check-prices.ts
268–288): `400 + U()*500` jittered by `-100 + U()*200`, airline drawn from
the 5-entry list, templated booking URLs. -/
def simFlight (origin destination : String) (rnd : CatRnd) : FlightData :=
  let basePrice : ℚ := 400 + rnd.baseRand * 500
  let variance : ℚ := -100 + rnd.varRand * 200
  let airline := airlinesSim.getD rnd.simIdx ""
  { price := jsRound (basePrice + variance)
    carrier := airline
    withinBudget := false
    source := "simulation"
    searchResult := none
    bookingUrls :=
      ["https://www." ++ strLower airline ++ ".com/flights/" ++
         strLower origin ++ "-" ++ strLower destination,
       "https://www.expedia.com/flights/" ++ strLower origin ++ "-" ++ strLower destination,
       "https://www.kayak.com/flights/" ++ strLower origin ++ "-" ++ strLower destination] }

/-- `checkFlightPrices` (check-prices.ts 234–289).  The query is built and
sent to the gateway; `sr` is the gateway's reply. -/
def checkFlightPrices (origin destination startDate : String)
    (prefs : Option FlightPreferences) (sr : Option SearchResult) (rnd : CatRnd) :
    FlightData :=
  let _query := flightQuery origin destination startDate prefs
  match sr with
  | some r =>
    if strTruthy r.answer || r.results.isSome then
      let text := resultText r
      { price := extractPrice text 400 900 rnd.priceRand
        carrier := extractEntity text airlines8 rnd.entityIdx
        withinBudget := false
        source := "perplexity"
        searchResult := some (strTake text 300)
        bookingUrls := extractBookingUrls r }
    else simFlight origin destination rnd
  | none => simFlight origin destination rnd

/-- The simulation fallback of `checkHotelPrices` (check-prices.ts
365–386): `80 + U()*200` jittered by `-40 + U()*80`. -/
def simHotel (destination : String) (rnd : CatRnd) : HotelData :=
  let basePrice : ℚ := 80 + rnd.baseRand * 200
  let variance : ℚ := -40 + rnd.varRand * 80
  let name := hotelNamesSim.getD rnd.simIdx ""
  { pricePerNight := jsRound (basePrice + variance)
    name := name
    withinBudget := false
    source := "simulation"
    searchResult := none
    bookingUrls :=
      ["https://www." ++ String.mk (removeFirst ' ' (strLower name).toList) ++
         ".com/hotels/" ++ strLower destination,
       "https://www.booking.com/searchresults.html?ss=" ++ destination,
       "https://www.hotels.com/search.do?destination=" ++ destination] }

/-- `checkHotelPrices` (check-prices.ts 331–386). -/
def checkHotelPrices (destination startDate : String)
    (sr : Option SearchResult) (rnd : CatRnd) : HotelData :=
  let _startDate := startDate
  match sr with
  | some r =>
    if strTruthy r.answer || r.results.isSome then
      let text := resultText r
      { pricePerNight := extractPrice text 80 280 rnd.priceRand
        name := extractEntity text hotelNames10 rnd.entityIdx
        withinBudget := false
        source := "perplexity"
        searchResult := some (strTake text 300)
        bookingUrls := extractBookingUrls r }
    else simHotel destination rnd
  | none => simHotel destination rnd

/-- The simulation fallback of `checkCarPrices` (check-prices.ts
460–481): `30 + U()*70` jittered by `-20 + U()*40`. -/
def simCar (destination : String) (rnd : CatRnd) : CarData :=
  let basePrice : ℚ := 30 + rnd.baseRand * 70
  let variance : ℚ := -20 + rnd.varRand * 40
  let type := carTypesSim.getD rnd.simIdx ""
  { pricePerDay := jsRound (basePrice + variance)
    type := type
    withinBudget := false
    source := "simulation"
    searchResult := none
    bookingUrls :=
      ["https://www.enterprise.com/en/car-rental/locations/us/" ++
         strLower destination ++ ".html",
       "https://www.hertz.com/rentacar/location/us/" ++ strLower destination,
       "https://www.avis.com/en/locations/us/" ++ strLower destination] }

/-- `checkCarPrices` (check-prices.ts 426–481). -/
def checkCarPrices (destination startDate : String)
    (sr : Option SearchResult) (rnd : CatRnd) : CarData :=
  let _startDate := startDate
  match sr with
  | some r =>
    if strTruthy r.answer || r.results.isSome then
      let text := resultText r
      { pricePerDay := extractPrice text 30 100 rnd.priceRand
        type := extractEntity text carTypes8 rnd.entityIdx
        withinBudget := false
        source := "perplexity"
        searchResult := some (strTake text 300)
        bookingUrls := extractBookingUrls r }
    else simCar destination rnd
  | none => simCar destination rnd

/-! ## Trip details, dates and the aggregator -/

/-- `TripDetails` (src/types/travel.ts): dates are strings, budgets JS
numbers (idealized as ℚ). -/
structure TripDetails where
  origin : String
  destination : String
  startDate : String
  endDate : String
  totalBudget : ℚ
  flightBudget : ℚ
  hotelBudgetPerNight : ℚ
  carBudgetPerDay : ℚ
  flightPreferences : Option FlightPreferences

/-- Days from the Unix epoch of a civil date (Howard Hinnant's algorithm,
as used by every conforming `Date` implementation for UTC dates). -/
def daysFromCivil (y m d : ℤ) : ℤ :=
  let y := if m ≤ 2 then y - 1 else y
  let era := (if 0 ≤ y then y else y - 399) / 400
  let yoe := y - era * 400
  let mp := (m + 9) % 12
  let doy := (153 * mp + 2) / 5 + d - 1
  let doe := yoe * 365 + yoe / 4 - yoe / 100 + doy
  era * 146097 + doe - 719468

/-- `new Date(s).getTime()` for a date-only ISO string `YYYY-MM-DD`
(parsed as UTC midnight).  Only this well-formed shape is modelled; an
unparseable string (NaN in JS) is `none`. -/
def parseDateMs (s : String) : Option ℤ :=
  match (s.toList.splitOn '-').map (fun g => (g, g.all Char.isDigit)) with
  | [(y, true), (m, true), (d, true)] =>
    if y.length = 4 ∧ m.length = 2 ∧ d.length = 2 then
      let mv := digitsToNat m
      let dv := digitsToNat d
      if 1 ≤ mv ∧ mv ≤ 12 ∧ 1 ≤ dv ∧ dv ≤ 31 then
        some (daysFromCivil (digitsToNat y) mv dv * 86400000)
      else none
    else none
  | _ => none

/-- The `days` computation of `checkAllPrices` (check-prices.ts 487–490):
`Math.ceil((end - start) / (1000*60*60*24))`.  `none` models the
NaN-producing case of an unparseable date. -/
def tripDays (td : TripDetails) : Option ℤ :=
  match parseDateMs td.startDate, parseDateMs td.endDate with
  | some s, some e => some ⌈((e : ℚ) - (s : ℚ)) / 86400000⌉
  | _, _ => none

/-- The `<=` comparison setting every budget flag (check-prices.ts
507–509, 521). -/
def budgetOk (price budget : ℚ) : Bool := decide (price ≤ budget)

/-- `PriceCheck` (src/types/travel.ts). -/
structure PriceCheck where
  flight : FlightData
  hotel : HotelData
  car : CarData
  totalCost : ℤ
  withinTotalBudget : Bool
  timestamp : String

/-- The gateway replies for the three concurrent category lookups. -/
structure Gateway where
  flight : Option SearchResult
  hotel : Option SearchResult
  car : Option SearchResult

/-- The random draws of the three concurrent category lookups. -/
structure TripRnd where
  flight : CatRnd
  hotel : CatRnd
  car : CatRnd

/-- `checkAllPrices` (check-prices.ts 486–524).  `now` models
`new Date().toISOString()`.  Returns `none` exactly when a date string does
not parse (the NaN flow, see `tripDays`). -/
def checkAllPrices (td : TripDetails) (gw : Gateway) (rnd : TripRnd)
    (now : String) : Option PriceCheck :=
  match tripDays td with
  | none => none
  | some days =>
    let flightData := checkFlightPrices td.origin td.destination td.startDate
      td.flightPreferences gw.flight rnd.flight
    let hotelData := checkHotelPrices td.destination td.startDate gw.hotel rnd.hotel
    let carData := checkCarPrices td.destination td.startDate gw.car rnd.car
    let totalHotelCost := hotelData.pricePerNight * days
    let totalCarCost := carData.pricePerDay * days
    let totalCost := flightData.price + totalHotelCost + totalCarCost
    some
      { flight := { flightData with
          withinBudget := budgetOk (flightData.price : ℚ) td.flightBudget }
        hotel := { hotelData with
          withinBudget := budgetOk (hotelData.pricePerNight : ℚ) td.hotelBudgetPerNight }
        car := { carData with
          withinBudget := budgetOk (carData.pricePerDay : ℚ) td.carBudgetPerDay }
        totalCost := totalCost
        withinTotalBudget := budgetOk (totalCost : ℚ) td.totalBudget
        timestamp := now }

/-! ## The POST handler (check-prices.ts 526–648) -/

/-- The outcomes of the POST route that the claims distinguish: the 400
validation rejection with its error payload, and the 200 success carrying
the price check. -/
inductive PostResponse where
  | badRequest (error : String)
  | ok (pc : PriceCheck)

/-- The validation of check-prices.ts 531: all four string fields truthy
(non-empty). -/
def validTrip (td : TripDetails) : Bool :=
  !td.origin.toList.isEmpty && !td.destination.toList.isEmpty &&
  !td.startDate.toList.isEmpty && !td.endDate.toList.isEmpty

/-- The POST handler: reject invalid trip details with the 400 payload
before anything else, otherwise run `checkAllPrices` and answer 200 with
the report.  (The Raindrop persistence calls are fire-and-forget and never
affect the response; they are not modelled.  `none` is the unmodelled
NaN-date flow, see `tripDays`.) -/
def postHandler (td : TripDetails) (gw : Gateway) (rnd : TripRnd)
    (now : String) : Option PostResponse :=
  if !validTrip td then some (.badRequest "Missing required trip details")
  else (checkAllPrices td gw rnd now).map .ok

/-! ## Concrete fixtures used by witnesses and counterexamples -/

/-- A deterministic random bundle (all draws 0). -/
def rnd0 : CatRnd :=
  { priceRand := 0, entityIdx := 0, baseRand := 0, varRand := 0, simIdx := 0 }

def rnd3 : TripRnd := { flight := rnd0, hotel := rnd0, car := rnd0 }

/-- A gateway that failed for all three categories. -/
def gw0 : Gateway := { flight := none, hotel := none, car := none }

/-- The end-to-end scenario of spec §8 property 6. -/
def td0 : TripDetails :=
  { origin := "NYC", destination := "LAX"
    startDate := "2024-12-01", endDate := "2024-12-04"
    totalBudget := 2000, flightBudget := 600
    hotelBudgetPerNight := 200, carBudgetPerDay := 60
    flightPreferences := none }

/-- A same-day trip: all fields present, duration 0 days. -/
def tdSameDay : TripDetails :=
  { origin := "NYC", destination := "LAX"
    startDate := "2024-12-01", endDate := "2024-12-01"
    totalBudget := 2000, flightBudget := 600
    hotelBudgetPerNight := 200, carBudgetPerDay := 60
    flightPreferences := none }

/-- A trip request with a missing (empty) origin. -/
def tdMissing : TripDetails :=
  { origin := "", destination := "LAX"
    startDate := "2024-12-01", endDate := "2024-12-04"
    totalBudget := 2000, flightBudget := 600
    hotelBudgetPerNight := 200, carBudgetPerDay := 60
    flightPreferences := none }

/-- A gateway reply with a synthesized answer but no extractable price. -/
def srNoPrices : SearchResult :=
  { answer := some "no prices available", results := none }

/-- A preference record with every field absent. -/
def prefsEmpty : FlightPreferences :=
  { stops := none, preferredAirlines := none, seatPreference := none
    extraLegroom := none, timeOfDay := none, baggageCount := none }

/-! ## Helper lemmas -/

theorem jsRound_mono {a b : ℚ} (h : a ≤ b) : jsRound a ≤ jsRound b :=
  Int.floor_le_floor (add_le_add_right h _)

theorem jsRound_min (a b : ℚ) : min (jsRound a) (jsRound b) = jsRound (min a b) := by
  rcases le_total a b with h | h
  · rw [min_eq_left (jsRound_mono h), min_eq_left h]
  · rw [min_eq_right (jsRound_mono h), min_eq_right h]

theorem jsRound_le (q : ℚ) : (jsRound q : ℚ) ≤ q + 1/2 := Int.floor_le _

theorem lt_jsRound (q : ℚ) : q - 1/2 < (jsRound q : ℚ) := by
  have h := Int.sub_one_lt_floor (q + 1/2)
  rw [jsRound]
  linarith

theorem jsRound_intCast (n : ℤ) : jsRound ((n : ℚ)) = n := by
  rw [jsRound, Int.floor_int_add]
  norm_num

/-- Evaluation rule for `parseAmount` once the integer and fraction digit
runs are known. -/
theorem parseAmount_eval (cs ip fp : List Char)
    (hip : (stripCommas cs).takeWhile (fun c => c ≠ '.') = ip)
    (hfp : ((stripCommas cs).dropWhile (fun c => c ≠ '.')).drop 1 = fp) :
    parseAmount cs = (digitsToNat ip : ℚ) + (digitsToNat fp : ℚ) / 100 := by
  simp only [parseAmount]
  rw [hip, hfp]

theorem foldl_min_map_jsRound :
    ∀ (l : List ℚ) (a : ℚ), (l.map jsRound).foldl min (jsRound a) = jsRound (l.foldl min a)
  | [], _ => rfl
  | b :: t, a => by
    simp only [List.map_cons, List.foldl_cons]
    rw [jsRound_min, foldl_min_map_jsRound t (min a b)]

theorem foldl_min_mem {α : Type} [LinearOrder α] :
    ∀ (l : List α) (a : α), l.foldl min a = a ∨ l.foldl min a ∈ l
  | [], _ => Or.inl rfl
  | b :: t, a => by
    simp only [List.foldl_cons]
    rcases foldl_min_mem t (min a b) with h | h
    · rcases min_choice a b with hm | hm
      · exact Or.inl (h.trans hm)
      · exact Or.inr (by rw [h, hm]; exact List.mem_cons_self b t)
    · exact Or.inr (List.mem_cons_of_mem b h)

theorem foldl_min_le_init {α : Type} [LinearOrder α] :
    ∀ (l : List α) (a : α), l.foldl min a ≤ a
  | [], _ => le_refl _
  | b :: t, a => by
    simp only [List.foldl_cons]
    exact le_trans (foldl_min_le_init t (min a b)) (min_le_left a b)

theorem foldl_min_le_mem {α : Type} [LinearOrder α] :
    ∀ (l : List α) (a x : α), x ∈ l → l.foldl min a ≤ x := by
  intro l
  induction l with
  | nil => intro a x h; exact absurd h (List.not_mem_nil x)
  | cons b t ih =>
    intro a x h
    simp only [List.foldl_cons]
    rcases List.mem_cons.mp h with rfl | h
    · exact le_trans (foldl_min_le_init t (min a x)) (min_le_right a x)
    · exact ih (min a b) x h

theorem filterMap_if {α β : Type} (p : α → Prop) [DecidablePred p] (f : α → β) :
    ∀ l : List α,
      (l.filterMap fun a => if p a then some (f a) else none) =
        (l.filter fun a => decide (p a)).map f
  | [] => rfl
  | a :: t => by
    by_cases h : p a <;>
      simp [List.filterMap_cons, List.filter_cons, h, filterMap_if p f t]

/-- `scanVocab` never succeeds on an out-of-vocabulary result: whatever it
returns is a case-insensitive copy of some vocabulary entry. -/
theorem scanVocab_ciEq {vocab : List String} :
    ∀ {s out : List Char}, scanVocab vocab s = some out →
      ∃ w ∈ vocab, ciEq w.toList out = true := by
  intro s
  induction s with
  | nil => intro out h; exact absurd h (by simp [scanVocab])
  | cons c t ih =>
    intro out h
    rw [scanVocab] at h
    cases hv : vocabHitAt vocab (c :: t) with
    | some w =>
      rw [hv] at h
      have hv' : List.find? (fun w => ciStartsWith w.toList (c :: t)) vocab = some w := hv
      refine ⟨w, List.mem_of_find?_eq_some hv', ?_⟩
      have hp0 := List.find?_some hv'
      have hp : ciStartsWith w.toList (c :: t) = true := hp0
      rw [ciStartsWith] at hp
      cases h
      exact hp
    | none =>
      rw [hv] at h
      exact ih h

/-- On a vocabulary without empty entries, `scanVocab` finds the leftmost
position at which any entry matches, and `vocabHitAt` (i.e. JS alternation
order) picks the entry there. -/
theorem scanVocab_leftmost (vocab : List String)
    (hw : ∀ w ∈ vocab, w.toList ≠ []) :
    ∀ s : List Char, (∃ p, (vocabHitAt vocab (s.drop p)).isSome = true) →
      ∃ p w, vocabHitAt vocab (s.drop p) = some w ∧
        scanVocab vocab s = some ((s.drop p).take w.toList.length) ∧
        ∀ q < p, vocabHitAt vocab (s.drop q) = none := by
  have hnil : vocabHitAt vocab [] = none := by
    cases hf : vocabHitAt vocab [] with
    | none => rfl
    | some w =>
      have hf' : List.find? (fun w => ciStartsWith w.toList []) vocab = some w := hf
      have hp0 := List.find?_some hf'
      have hp : ciStartsWith w.toList [] = true := hp0
      have hmem := List.mem_of_find?_eq_some hf'
      rw [ciStartsWith, List.take_nil, ciEq] at hp
      have : w.toList.map lowerChar = [] := by
        simpa using hp
      exact absurd (List.map_eq_nil_iff.mp this) (hw w hmem)
  intro s
  induction s with
  | nil =>
    intro ⟨p, hp⟩
    rw [List.drop_nil] at hp
    rw [hnil] at hp
    exact absurd hp (by simp)
  | cons c t ih =>
    intro ⟨p, hp⟩
    cases h0 : vocabHitAt vocab (c :: t) with
    | some w =>
      refine ⟨0, w, by simpa using h0, ?_, by omega⟩
      rw [scanVocab, h0]
      simp
    | none =>
      have hp' : ∃ p, (vocabHitAt vocab (t.drop p)).isSome = true := by
        cases p with
        | zero => rw [List.drop_zero, h0] at hp; exact absurd hp (by simp)
        | succ p => exact ⟨p, by simpa using hp⟩
      obtain ⟨p, w, h1, h2, h3⟩ := ih hp'
      refine ⟨p + 1, w, by simpa using h1, ?_, ?_⟩
      · rw [scanVocab, h0, h2]
        simp
      · intro q hq
        cases q with
        | zero => simpa using h0
        | succ q => simpa using h3 q (by omega)

theorem extractEntity_ciEq (text : String) (vocab : List String) (i : Nat)
    (hi : i < vocab.length) :
    ∃ w ∈ vocab, ciEq w.toList (extractEntity text vocab i).toList = true := by
  rw [extractEntity]
  cases h : scanVocab vocab text.toList with
  | some out =>
    obtain ⟨w, hmem, hci⟩ := scanVocab_ciEq h
    exact ⟨w, hmem, hci⟩
  | none =>
    refine ⟨vocab.getD i "", ?_, by simp [ciEq]⟩
    rw [List.getD_eq_getElem?_getD, List.getElem?_eq_getElem hi]
    exact List.getElem_mem hi

theorem td0_days : tripDays td0 = some 3 := by
  have h1 : parseDateMs "2024-12-01" = some 1733011200000 := by decide
  have h2 : parseDateMs "2024-12-04" = some 1733270400000 := by decide
  rw [tripDays]
  show (match parseDateMs "2024-12-01", parseDateMs "2024-12-04" with
    | some s, some e => some ⌈((e : ℚ) - (s : ℚ)) / 86400000⌉
    | _, _ => none) = some 3
  rw [h1, h2]
  norm_num

theorem tdSameDay_days : tripDays tdSameDay = some 0 := by
  have h1 : parseDateMs "2024-12-01" = some 1733011200000 := by decide
  rw [tripDays]
  show (match parseDateMs "2024-12-01", parseDateMs "2024-12-01" with
    | some s, some e => some ⌈((e : ℚ) - (s : ℚ)) / 86400000⌉
    | _, _ => none) = some 0
  rw [h1]
  norm_num

/-! ## The claims -/

/-- C2: for every trip whose dates parse to `days` with `days ≥ 1`, the
price check produced by `checkAllPrices` satisfies
`totalCost = flight.price + hotel.pricePerNight * days + car.pricePerDay * days`
exactly, with the same `days` value multiplying both the hotel and the car
contribution (integer arithmetic, no rounding drift). -/
theorem checkAllPrices_totalCost (td : TripDetails) (gw : Gateway) (rnd : TripRnd)
    (now : String) (days : ℤ) (hdays : tripDays td = some days) (_hpos : 1 ≤ days) :
    ∃ pc, checkAllPrices td gw rnd now = some pc ∧
      pc.totalCost = pc.flight.price + pc.hotel.pricePerNight * days +
        pc.car.pricePerDay * days := by
  rw [checkAllPrices, hdays]
  exact ⟨_, rfl, rfl⟩

/-- C2 witness: the spec §8 scenario (2024-12-01 → 2024-12-04, 3 days). -/
theorem checkAllPrices_totalCost_witness :
    ∃ pc, checkAllPrices td0 gw0 rnd3 "t" = some pc ∧
      pc.totalCost = pc.flight.price + pc.hotel.pricePerNight * 3 +
        pc.car.pricePerDay * 3 :=
  checkAllPrices_totalCost td0 gw0 rnd3 "t" 3 td0_days (by norm_num)

/-- C5: every `withinBudget` flag is exactly the `<=` comparison of the
corresponding price against the matching budget field,
`withinTotalBudget = totalCost <= totalBudget`, and the comparison is
monotone: decreasing a price with the budget fixed never turns a true flag
false. -/
theorem withinBudget_flags (td : TripDetails) (gw : Gateway) (rnd : TripRnd)
    (now : String) (days : ℤ) (hdays : tripDays td = some days) :
    ∃ pc, checkAllPrices td gw rnd now = some pc ∧
      (pc.flight.withinBudget = true ↔ (pc.flight.price : ℚ) ≤ td.flightBudget) ∧
      (pc.hotel.withinBudget = true ↔ (pc.hotel.pricePerNight : ℚ) ≤ td.hotelBudgetPerNight) ∧
      (pc.car.withinBudget = true ↔ (pc.car.pricePerDay : ℚ) ≤ td.carBudgetPerDay) ∧
      (pc.withinTotalBudget = true ↔ (pc.totalCost : ℚ) ≤ td.totalBudget) ∧
      (∀ price price' budget : ℚ, price' ≤ price →
        budgetOk price budget = true → budgetOk price' budget = true) := by
  rw [checkAllPrices, hdays]
  refine ⟨_, rfl, ?_, ?_, ?_, ?_, ?_⟩
  · simp [budgetOk]
  · simp [budgetOk]
  · simp [budgetOk]
  · simp [budgetOk]
  · intro price price' budget hle h
    rw [budgetOk, decide_eq_true_eq] at h ⊢
    exact le_trans hle h

/-- C5 witness at the spec §8 scenario. -/
theorem withinBudget_flags_witness :
    ∃ pc, checkAllPrices td0 gw0 rnd3 "t" = some pc ∧
      (pc.flight.withinBudget = true ↔ (pc.flight.price : ℚ) ≤ td0.flightBudget) ∧
      (pc.hotel.withinBudget = true ↔ (pc.hotel.pricePerNight : ℚ) ≤ td0.hotelBudgetPerNight) ∧
      (pc.car.withinBudget = true ↔ (pc.car.pricePerDay : ℚ) ≤ td0.carBudgetPerDay) ∧
      (pc.withinTotalBudget = true ↔ (pc.totalCost : ℚ) ≤ td0.totalBudget) ∧
      (∀ price price' budget : ℚ, price' ≤ price →
        budgetOk price budget = true → budgetOk price' budget = true) :=
  withinBudget_flags td0 gw0 rnd3 "t" 3 td0_days

/-- C3 (amended): a category lookup is total — every gateway outcome yields
a complete quote, no error reaches the caller — and the provenance tag is
`simulation` exactly when the gateway response is unusable in the sense of
the source's test (`null` response, or neither a truthy `answer` nor a
present `results` field).  A present-but-empty `results` array, or a truthy
answer from which no in-band price can be extracted, is tagged
`perplexity` even though the price then comes from the random fallback. -/
theorem lookup_source_tag (origin destination startDate : String)
    (prefs : Option FlightPreferences) (sr : Option SearchResult) (rnd : CatRnd) :
    (checkFlightPrices origin destination startDate prefs sr rnd).source
        = (if searchUsable sr then "perplexity" else "simulation") ∧
    (checkHotelPrices destination startDate sr rnd).source
        = (if searchUsable sr then "perplexity" else "simulation") ∧
    (checkCarPrices destination startDate sr rnd).source
        = (if searchUsable sr then "perplexity" else "simulation") := by
  cases sr with
  | none => exact ⟨rfl, rfl, rfl⟩
  | some r =>
    rw [checkFlightPrices, checkHotelPrices, checkCarPrices, searchUsable]
    by_cases h : (strTruthy r.answer || r.results.isSome) = true
    · rw [if_pos h, if_pos h, if_pos h, if_pos h]
      exact ⟨rfl, rfl, rfl⟩
    · rw [if_neg h, if_neg h, if_neg h, if_neg h]
      exact ⟨rfl, rfl, rfl⟩

/-- C3 counterexample: a gateway reply whose answer contains no extractable
in-band price ("no usable data" in the claim's sense) is still tagged
`perplexity`, not the fallback/simulation tag the claim requires. -/
theorem lookup_source_tag_counterexample :
    survivingPrices (resultText srNoPrices) 400 900 = [] ∧
    (checkFlightPrices "NYC" "LAX" "2024-12-01" none (some srNoPrices) rnd0).source
      = "perplexity" ∧
    "perplexity" ≠ "simulation" := by
  have htext : resultText srNoPrices = "no prices available" := by decide
  have hcap : matchedCaptures "no prices available" = [] := by decide
  refine ⟨?_, ?_, by decide⟩
  · rw [htext, survivingPrices, matchedAmounts, hcap]
    rfl
  · rw [checkFlightPrices]
    have hcond : (strTruthy srNoPrices.answer || srNoPrices.results.isSome) = true := by
      decide
    rw [if_pos hcond]

/-- C4 (amended): a trip request failing the field validation (an empty
origin, destination, startDate or endDate) is rejected with the structured
400 payload before any lookup is attempted — the response does not depend
on the gateway or on any lookup randomness.  (The non-positive-duration
part of the original claim is refuted by the counterexample.) -/
theorem post_rejects_invalid (td : TripDetails) (gw : Gateway) (rnd : TripRnd)
    (now : String) (h : validTrip td = false) :
    postHandler td gw rnd now = some (.badRequest "Missing required trip details") := by
  rw [postHandler, h]
  rfl

/-- C4 witness: an empty origin is rejected. -/
theorem post_rejects_invalid_witness :
    postHandler tdMissing gw0 rnd3 "t" = some (.badRequest "Missing required trip details") :=
  post_rejects_invalid tdMissing gw0 rnd3 "t" (by decide)

/-- C4 counterexample: a same-day trip (duration 0 < 1 day) passes
validation and is answered 200 with a full price check — the non-positive
duration is not rejected. -/
theorem post_rejects_invalid_counterexample :
    tripDays tdSameDay = some 0 ∧ (0 : ℤ) < 1 ∧
    ∃ pc, postHandler tdSameDay gw0 rnd3 "t" = some (.ok pc) := by
  refine ⟨tdSameDay_days, by norm_num, ?_⟩
  have hv : validTrip tdSameDay = true := by decide
  simp only [postHandler, hv, Bool.not_true, if_false, checkAllPrices, tdSameDay_days,
    Option.map_some']
  exact ⟨_, rfl⟩

/-- C9: the query builder is a pure function (identical inputs give
identical query text and domain allow-list), and an absent or fully
inactive preference set contributes no preference clause: the emitted query
is exactly the base query. -/
theorem query_builder_pure (origin destination startDate : String)
    (p : FlightPreferences) (h : inactivePrefs p = true) :
    buildFlightPreferencesQuery none = "" ∧
    buildFlightPreferencesQuery (some p) = "" ∧
    flightQuery origin destination startDate (some p) =
      flightQuery origin destination startDate none ∧
    (flightQuery origin destination startDate (some p), TRAVEL_DOMAINS.flights) =
      (flightQuery origin destination startDate (some p), TRAVEL_DOMAINS.flights) := by
  rw [inactivePrefs] at h
  simp only [Bool.and_eq_true, Bool.not_eq_true'] at h
  obtain ⟨⟨⟨⟨h1, h2⟩, h3⟩, h4⟩, h5⟩ := h
  have hb : buildFlightPreferencesQuery (some p) = "" := by
    rw [buildFlightPreferencesQuery, h1, h2, h3, h4, h5]
    rfl
  exact ⟨rfl, hb, by rw [flightQuery, flightQuery, hb, buildFlightPreferencesQuery], rfl⟩

/-- C9 witness: the all-absent preference record. -/
theorem query_builder_pure_witness :
    buildFlightPreferencesQuery none = "" ∧
    buildFlightPreferencesQuery (some prefsEmpty) = "" ∧
    flightQuery "NYC" "LAX" "2024-12-01" (some prefsEmpty) =
      flightQuery "NYC" "LAX" "2024-12-01" none ∧
    (flightQuery "NYC" "LAX" "2024-12-01" (some prefsEmpty), TRAVEL_DOMAINS.flights) =
      (flightQuery "NYC" "LAX" "2024-12-01" (some prefsEmpty), TRAVEL_DOMAINS.flights) :=
  query_builder_pure "NYC" "LAX" "2024-12-01" prefsEmpty (by decide)

/-- C7 (amended): for every input text and every in-range fallback index,
the entity extraction of each category yields a string that equals some
member of that category's vocabulary up to ASCII letter case — exact
membership on the no-match fallback path, but a matched slice keeps the
casing of the input text (JS `m[0]` is the matched slice, not the
vocabulary entry). -/
theorem extractEntity_in_vocabulary (text : String) (i : Nat) :
    (i < airlines8.length →
      ∃ w ∈ airlines8, ciEq w.toList (extractEntity text airlines8 i).toList = true) ∧
    (i < hotelNames10.length →
      ∃ w ∈ hotelNames10, ciEq w.toList (extractEntity text hotelNames10 i).toList = true) ∧
    (i < carTypes8.length →
      ∃ w ∈ carTypes8, ciEq w.toList (extractEntity text carTypes8 i).toList = true) :=
  ⟨extractEntity_ciEq text airlines8 i, extractEntity_ciEq text hotelNames10 i,
    extractEntity_ciEq text carTypes8 i⟩

/-- C7 witness: no airline occurs in "nothing here", so index 3 of the
vocabulary ("Southwest") is returned verbatim. -/
theorem extractEntity_in_vocabulary_witness :
    ∃ w ∈ airlines8, ciEq w.toList (extractEntity "nothing here" airlines8 3).toList = true :=
  (extractEntity_in_vocabulary "nothing here" 3).1 (by decide)

/-- C7 counterexample: on "UNITED to LAX" the case-insensitive airline
pattern matches, and the returned string is the input slice "UNITED",
which is not a member of the airline vocabulary. -/
theorem extractEntity_in_vocabulary_counterexample :
    extractEntity "UNITED to LAX" airlines8 0 = "UNITED" ∧ "UNITED" ∉ airlines8 := by
  constructor
  · decide
  · decide

/-- C8 (amended): when some vocabulary entry occurs (case-insensitively)
in the text, the extraction returns the text slice at the *leftmost*
position where any entry matches; vocabulary order decides only among
entries matching at that same position (`vocabHitAt` is a `find?` in list
order).  It does not return the first-listed matched entry when a
later-listed entry occurs earlier in the text. -/
theorem extractEntity_leftmost (text : String) (vocab : List String) (i : Nat)
    (hw : ∀ w ∈ vocab, w.toList ≠ [])
    (hocc : ∃ p, (vocabHitAt vocab (text.toList.drop p)).isSome = true) :
    ∃ p w, vocabHitAt vocab (text.toList.drop p) = some w ∧
      extractEntity text vocab i =
        String.mk ((text.toList.drop p).take w.toList.length) ∧
      ∀ q < p, vocabHitAt vocab (text.toList.drop q) = none := by
  obtain ⟨p, w, h1, h2, h3⟩ := scanVocab_leftmost vocab hw text.toList hocc
  exact ⟨p, w, h1, by rw [extractEntity, h2], h3⟩

/-- C8 witness: "Delta flights" with the airline vocabulary. -/
theorem extractEntity_leftmost_witness :
    ∃ p w, vocabHitAt airlines8 ("Delta flights".toList.drop p) = some w ∧
      extractEntity "Delta flights" airlines8 0 =
        String.mk (("Delta flights".toList.drop p).take w.toList.length) ∧
      ∀ q < p, vocabHitAt airlines8 ("Delta flights".toList.drop q) = none :=
  extractEntity_leftmost "Delta flights" airlines8 0 (by decide) ⟨0, by decide⟩

/-- C8 counterexample: in "Delta and United", the entry "United" is listed
before "Delta" in the vocabulary and occurs literally (at position 10), so
the claim predicts "United"; the code returns "Delta", the first match by
text position. -/
theorem extractEntity_leftmost_counterexample :
    extractEntity "Delta and United" airlines8 0 = "Delta" ∧
    vocabHitAt airlines8 ("Delta and United".toList.drop 10) = some "United" ∧
    airlines8.indexOf "United" < airlines8.indexOf "Delta" := by
  refine ⟨by decide, by decide, by decide⟩

/-- C10: the currency patterns only recognize 1–3 leading digits followed
by comma-separated 3-digit groups, so a 4-digit amount written without a
thousands separator is truncated: on "$1200" the single capture is "120",
the collected amount is 120 (not 1200), and with band (400, 900) the
extracted price is 120. -/
theorem digit_grouping_truncates :
    matchedCaptures "$1200" = [['1', '2', '0']] ∧
    matchedAmounts "$1200" = [120] ∧
    extractPrice "$1200" 400 900 0 = 120 ∧
    (1200 : ℚ) ∉ matchedAmounts "$1200" := by
  have hcap : matchedCaptures "$1200" = [['1', '2', '0']] := by decide
  have hamt : matchedAmounts "$1200" = [120] := by
    rw [matchedAmounts, hcap]
    show [parseAmount ['1', '2', '0']] = [(120 : ℚ)]
    rw [parseAmount_eval ['1', '2', '0'] ['1', '2', '0'] [] (by decide) (by decide)]
    rw [show digitsToNat ['1', '2', '0'] = 120 from by decide,
      show digitsToNat [] = 0 from rfl]
    norm_num
  have hsurv : survivingPrices "$1200" 400 900 = [120] := by
    rw [survivingPrices, hamt]
    rw [filterMap_if]
    rw [List.filter_cons, if_pos (by simp only [decide_eq_true_eq]; norm_num),
      List.filter_nil, List.map_cons, List.map_nil]
    rw [show jsRound (120 : ℚ) = (120 : ℤ) from by
      rw [show (120 : ℚ) = ((120 : ℤ) : ℚ) from by norm_num, jsRound_intCast]]
  refine ⟨hcap, hamt, ?_, by rw [hamt]; norm_num⟩
  rw [extractPrice, hsurv]
  rfl

/-- C1 (amended): whenever some pattern-matching amount lies in the
plausibility band `[low*0.3, high*3]` (with a positive lower bound, as in
every call site), `extractPrice` returns the band's minimum surviving
amount rounded half-up to a whole currency unit; because the band filter
is applied *before* rounding, the returned integer can leave the exact
band by less than half a unit, so it is only guaranteed to lie in
`[low*0.3 - 1/2, high*3 + 1/2]`. -/
theorem extractPrice_min_inband (text : String) (low high rand : ℚ) (hlow : 0 < low)
    (hne : ∃ q ∈ matchedAmounts text, low * (3/10) ≤ q ∧ q ≤ high * 3) :
    ∃ q ∈ matchedAmounts text,
      (low * (3/10) ≤ q ∧ q ≤ high * 3) ∧
      (∀ q' ∈ matchedAmounts text, low * (3/10) ≤ q' ∧ q' ≤ high * 3 → q ≤ q') ∧
      extractPrice text low high rand = jsRound q ∧
      low * (3/10) - 1/2 ≤ ((extractPrice text low high rand : ℤ) : ℚ) ∧
      ((extractPrice text low high rand : ℤ) : ℚ) ≤ high * 3 + 1/2 := by
  have hband : ∀ q : ℚ, (low * (3/10) ≤ q ∧ q ≤ high * 3) → 0 < q := by
    intro q hq
    have hp : 0 < low * (3/10) := by positivity
    linarith [hq.1]
  have hsurv : survivingPrices text low high =
      ((matchedAmounts text).filter fun q =>
        decide (low * (3/10) ≤ q ∧ q ≤ high * 3)).map jsRound := by
    rw [survivingPrices]
    rw [filterMap_if]
    congr 1
    apply List.filter_congr
    intro q _
    apply decide_eq_decide.mpr
    constructor
    · rintro ⟨_, h⟩
      exact h
    · intro hb
      exact ⟨hband q hb, hb⟩
  obtain ⟨q0, hq0mem, hq0band⟩ := hne
  have hq0L : q0 ∈ (matchedAmounts text).filter fun q =>
      decide (low * (3/10) ≤ q ∧ q ≤ high * 3) :=
    List.mem_filter.mpr ⟨hq0mem, decide_eq_true hq0band⟩
  cases hL : (matchedAmounts text).filter fun q =>
      decide (low * (3/10) ≤ q ∧ q ≤ high * 3) with
  | nil => exact absurd (hL ▸ hq0L) (List.not_mem_nil q0)
  | cons h t =>
    have hval : extractPrice text low high rand = jsRound (t.foldl min h) := by
      rw [extractPrice, hsurv, hL, List.map_cons]
      show (List.map jsRound t).foldl min (jsRound h) = jsRound (t.foldl min h)
      exact foldl_min_map_jsRound t h
    have hmmem : t.foldl min h ∈ (matchedAmounts text).filter fun q =>
        decide (low * (3/10) ≤ q ∧ q ≤ high * 3) := by
      rw [hL]
      rcases foldl_min_mem t h with he | he
      · rw [he]
        exact List.mem_cons_self h t
      · exact List.mem_cons_of_mem h he
    have hm := List.mem_filter.mp hmmem
    have hmband : low * (3/10) ≤ t.foldl min h ∧ t.foldl min h ≤ high * 3 :=
      of_decide_eq_true hm.2
    refine ⟨t.foldl min h, hm.1, hmband, ?_, hval, ?_, ?_⟩
    · intro q' hq'mem hq'band
      have hq'L : q' ∈ (matchedAmounts text).filter fun q =>
          decide (low * (3/10) ≤ q ∧ q ≤ high * 3) :=
        List.mem_filter.mpr ⟨hq'mem, decide_eq_true hq'band⟩
      rw [hL] at hq'L
      rcases List.mem_cons.mp hq'L with rfl | hq't
      · exact foldl_min_le_init t q'
      · exact foldl_min_le_mem t h q' hq't
    · rw [hval]
      have := lt_jsRound (t.foldl min h)
      linarith [hmband.1]
    · rw [hval]
      have := jsRound_le (t.foldl min h)
      linarith [hmband.2]

/-- C1 counterexample: "$120.30" with bounds (401, 900).  The amount
120.30 lies in the band `[401*0.3, 900*3] = [120.3, 2700]`, so the claim
asserts the returned value stays inside the band; the code returns
`Math.round(120.30) = 120 < 120.3`, outside the band. -/
theorem extractPrice_min_inband_counterexample :
    matchedAmounts "$120.30" = [1203/10] ∧
    ((401 : ℚ) * (3/10) ≤ 1203/10 ∧ (1203/10 : ℚ) ≤ 900 * 3) ∧
    extractPrice "$120.30" 401 900 0 = 120 ∧
    ¬((401 : ℚ) * (3/10) ≤ ((120 : ℤ) : ℚ)) := by
  have hcap : matchedCaptures "$120.30" = [['1', '2', '0', '.', '3', '0']] := by decide
  have hamt : matchedAmounts "$120.30" = [1203/10] := by
    rw [matchedAmounts, hcap]
    show [parseAmount ['1', '2', '0', '.', '3', '0']] = [(1203/10 : ℚ)]
    rw [parseAmount_eval ['1', '2', '0', '.', '3', '0'] ['1', '2', '0'] ['3', '0']
      (by decide) (by decide)]
    rw [show digitsToNat ['1', '2', '0'] = 120 from by decide,
      show digitsToNat ['3', '0'] = 30 from by decide]
    norm_num
  have hround : jsRound (1203/10 : ℚ) = 120 := by
    rw [jsRound]
    apply Int.floor_eq_iff.mpr
    constructor <;> norm_num
  have hsurv : survivingPrices "$120.30" 401 900 = [120] := by
    rw [survivingPrices, hamt]
    rw [filterMap_if]
    rw [List.filter_cons, if_pos (by simp only [decide_eq_true_eq]; norm_num),
      List.filter_nil, List.map_cons, List.map_nil, hround]
  refine ⟨hamt, by norm_num, ?_, by norm_num⟩
  rw [extractPrice, hsurv]
  rfl

/-- C1 witness for the amended theorem: "$500 flights" with band (400, 900). -/
theorem extractPrice_min_inband_witness :
    ∃ q ∈ matchedAmounts "$500 flights",
      ((400 : ℚ) * (3/10) ≤ q ∧ q ≤ (900 : ℚ) * 3) ∧
      (∀ q' ∈ matchedAmounts "$500 flights",
        (400 : ℚ) * (3/10) ≤ q' ∧ q' ≤ (900 : ℚ) * 3 → q ≤ q') ∧
      extractPrice "$500 flights" 400 900 0 = jsRound q ∧
      (400 : ℚ) * (3/10) - 1/2 ≤ ((extractPrice "$500 flights" 400 900 0 : ℤ) : ℚ) ∧
      ((extractPrice "$500 flights" 400 900 0 : ℤ) : ℚ) ≤ (900 : ℚ) * 3 + 1/2 := by
  have hcap : matchedCaptures "$500 flights" = [['5', '0', '0']] := by decide
  have hamt : matchedAmounts "$500 flights" = [500] := by
    rw [matchedAmounts, hcap]
    show [parseAmount ['5', '0', '0']] = [(500 : ℚ)]
    rw [parseAmount_eval ['5', '0', '0'] ['5', '0', '0'] [] (by decide) (by decide)]
    rw [show digitsToNat ['5', '0', '0'] = 500 from by decide,
      show digitsToNat [] = 0 from rfl]
    norm_num
  exact extractPrice_min_inband "$500 flights" 400 900 0 (by norm_num)
    ⟨500, by rw [hamt]; exact List.mem_cons_self _ _, by norm_num⟩

/-- `matchedAmounts` of the empty text is empty. -/
theorem matchedAmounts_empty : matchedAmounts "" = [] := by
  rw [matchedAmounts, show matchedCaptures "" = [] from by decide]
  rfl

/-- C6: when no pattern-matching amount lies in the band
`[low*0.3, high*3]` (in particular on empty text), `extractPrice` takes the
random fallback and returns an integer within `[low, high]` inclusive, for
whole-unit bounds `low ≤ high` and any random draw in `[0, 1)`. -/
theorem extractPrice_fallback_range (text : String) (low high : ℤ) (rand : ℚ)
    (hlh : low ≤ high) (hr0 : 0 ≤ rand) (hr1 : rand < 1)
    (hnone : ∀ q ∈ matchedAmounts text,
      ¬((low : ℚ) * (3/10) ≤ q ∧ q ≤ (high : ℚ) * 3)) :
    low ≤ extractPrice text (low : ℚ) (high : ℚ) rand ∧
    extractPrice text (low : ℚ) (high : ℚ) rand ≤ high := by
  have hsurv : survivingPrices text (low : ℚ) (high : ℚ) = [] := by
    rw [survivingPrices]
    rw [List.filterMap_eq_nil_iff]
    intro q hq
    rw [if_neg]
    rintro ⟨_, hb⟩
    exact hnone q hq hb
  have hnn : (0 : ℚ) ≤ (high : ℚ) - (low : ℚ) := by
    rw [sub_nonneg]
    exact_mod_cast hlh
  have hx0 : (low : ℚ) ≤ (low : ℚ) + rand * ((high : ℚ) - (low : ℚ)) := by
    have := mul_nonneg hr0 hnn
    linarith
  have hx1 : (low : ℚ) + rand * ((high : ℚ) - (low : ℚ)) ≤ (high : ℚ) := by
    have h1 : rand * ((high : ℚ) - (low : ℚ)) ≤ 1 * ((high : ℚ) - (low : ℚ)) :=
      mul_le_mul_of_nonneg_right (le_of_lt hr1) hnn
    linarith
  rw [extractPrice, hsurv]
  constructor
  · show low ≤ jsRound ((low : ℚ) + rand * ((high : ℚ) - (low : ℚ)))
    rw [jsRound]
    apply Int.le_floor.mpr
    linarith
  · show jsRound ((low : ℚ) + rand * ((high : ℚ) - (low : ℚ))) ≤ high
    rw [jsRound]
    apply Int.floor_le_iff.mpr
    linarith

/-- C6 witness: the empty text with band (400, 900) and draw 0. -/
theorem extractPrice_fallback_range_witness :
    (400 : ℤ) ≤ extractPrice "" ((400 : ℤ) : ℚ) ((900 : ℤ) : ℚ) 0 ∧
    extractPrice "" ((400 : ℤ) : ℚ) ((900 : ℤ) : ℚ) 0 ≤ 900 :=
  extractPrice_fallback_range "" 400 900 0 (by norm_num) (by norm_num) (by norm_num)
    (by rw [matchedAmounts_empty]; intro q hq; exact absurd hq (List.not_mem_nil q))

end TravelGuardian
